import Mathlib

/-!
Shallow embedding of the EarthDaylightSim repository (JavaScript) and proofs
about its astronomical model and orbit-camera controller.

The repository holds three program variants:
* `main.js` (first program): orthographic camera, mutable `cameraDistance`,
  `DefaultCameraDistance = 1.5`, zoom via `z`/`c` keys, clamp of `phi` to
  `max(min(phi, PI), 0.001)` — embedded in namespace `EarthSim.Ortho`;
* `main.js` (second program): perspective camera, fixed `CameraDistance = 2.2`,
  camera tilt with delta rotation — embedded in namespace `EarthSim.Persp`;
* `src/unnamed/part_000`: perspective camera, clamp of `phi` to
  `max(min(phi, PI - 0.1), 0.1)` — embedded in namespace `EarthSim.Part0`.

Real (JS `Number`) arithmetic is embedded over `ℝ`; JS integer quantities
(minutes, day counts, millisecond differences of `Date`s within a year)
over `ℕ`.
-/

namespace EarthSim

/- ===================== Astronomical model: time of day ==================== -/

/-- JS `now.getUTCHours()` for a wall-clock instant `t` given as whole minutes
since an epoch falling on a UTC midnight. -/
def getUTCHours (t : ℕ) : ℕ := t / 60 % 24

/-- JS `now.getUTCMinutes()` for the same instant. -/
def getUTCMinutes (t : ℕ) : ℕ := t % 60

/-- The `UTCMinutes` local in `updateEarthRotation`:
`now.getUTCHours() * 60 + now.getUTCMinutes()`. -/
def UTCMinutes (t : ℕ) : ℕ := getUTCHours t * 60 + getUTCMinutes t

/- ===================== Astronomical model: day of year =================== -/

/-- A local calendar instant, as the JS `Date` getters expose it: the calendar
year (`getFullYear`), the 0-based index of the day inside that year, and the
milliseconds elapsed since that day's local midnight. -/
structure LocalDate where
  year : ℤ
  dayIndex : ℕ
  msOfDay : ℕ

/-- Gregorian leap-year rule, as ECMAScript `Date` arithmetic uses it. -/
def isLeap (y : ℤ) : Bool := (y % 4 == 0 && y % 100 != 0) || y % 400 == 0

/-- Number of days in a calendar year. -/
def daysInYear (y : ℤ) : ℕ := if isLeap y then 366 else 365

/-- Milliseconds per day, the divisor `1000 * 60 * 60 * 24` in the source. -/
def msPerDay : ℕ := 86400000

/-- A `LocalDate` is valid when its day index is inside its year and its
time of day is inside the day. -/
def ValidDate (d : LocalDate) : Prop :=
  d.dayIndex < daysInYear d.year ∧ d.msOfDay < msPerDay

/-- The millisecond difference `time - startOfYear` computed by
`getSunlightAngle` with `startOfYear = new Date(time.getFullYear(), 0, 0)`.
In ECMAScript, `new Date(y, 0, 0)` is day 0 of January, which underflows to
the last day of the previous month: local midnight of December 31 of year
`y - 1`, one whole day before January 1 of year `y`. Hence the difference is
`(dayIndex + 1)` whole days plus the time of day. -/
def msSinceStartOfYear (d : LocalDate) : ℕ :=
  (d.dayIndex + 1) * msPerDay + d.msOfDay

/-- The `dayOfYear` local of `getSunlightAngle` / `updateSunlightAngle` /
`updateRotationX`: `Math.floor((time - startOfYear) / (1000 * 60 * 60 * 24))`. -/
def dayOfYear (d : LocalDate) : ℕ := msSinceStartOfYear d / msPerDay

/-- Modelled from the spec claim (not the source): the same floor computation
but with `startOfYear` taken as local midnight of January 1 of the date's
year, the convention the claim asserts. -/
def msSinceJan1 (d : LocalDate) : ℕ := d.dayIndex * msPerDay + d.msOfDay

/-- Modelled from the spec claim (not the source): `dayOfYear` under the
January-1 convention. -/
def dayOfYearJan1 (d : LocalDate) : ℕ := msSinceJan1 d / msPerDay

noncomputable section

/-- `const GMTOffset = -PI` (distance between map left edge and longitude 0). -/
def GMTOffset : ℝ := -Real.pi

/-- `const RadPerMinute = 2 * PI / 1440` (radian per minute). -/
def RadPerMinute : ℝ := 2 * Real.pi / 1440

/-- `const SunlightDistance = 5`. -/
def SunlightDistance : ℝ := 5

/-- `updateEarthRotation` (identical in all three variants): the value written
to `earth.rotation.y`, namely `UTCMinutes * RadPerMinute + GMTOffset - PI / 2`. -/
def updateEarthRotation (t : ℕ) : ℝ :=
  (UTCMinutes t : ℝ) * RadPerMinute + GMTOffset - Real.pi / 2

/-- The spec's `computePlanetRotation(nowUTC)`: `utcMinutes = hours*60+minutes`;
`rotation = utcMinutes * (2π/1440) + (−π) − π/2`. -/
def computePlanetRotation (hours minutes : ℕ) : ℝ :=
  ((hours * 60 + minutes : ℕ) : ℝ) * (2 * Real.pi / 1440) + (-Real.pi) - Real.pi / 2

/-- Congruence of two angles modulo `2π`. -/
def congMod2Pi (a b : ℝ) : Prop := ∃ k : ℤ, a - b = k * (2 * Real.pi)

/- ================ Astronomical model: sun elevation (C4, C9) ============== -/

/-- The `sunlightAngleSINE` local of `updateSunlightAngle` / `updateRotationX`:
`0.398 * Math.cos(2 * Math.PI * (dayOfYear - 173) / 365.242)`. -/
def sunlightAngleSINE (dayOfYear : ℝ) : ℝ :=
  0.398 * Real.cos (2 * Real.pi * (dayOfYear - 173) / 365.242)

/-- `getSunlightAngle` (first `main.js` program), as a function of the computed
day of year: `Math.asin(0.398 * Math.cos(2 * PI * (dayOfYear - 173) / 365.242))`. -/
def getSunlightAngle (dayOfYear : ℝ) : ℝ :=
  Real.arcsin (sunlightAngleSINE dayOfYear)

/-- Directional-light y displacement in the first `main.js` program:
`SunlightDistance * Math.tan(sunlightAngle)` with `sunlightAngle = getSunlightAngle`. -/
def yDisplacementAsin (dayOfYear : ℝ) : ℝ :=
  SunlightDistance * Real.tan (getSunlightAngle dayOfYear)

/-- Directional-light y displacement in the other two variants:
`SunlightDistance * sunlightAngleTANGENT` with
`sunlightAngleTANGENT = sunlightAngleSINE / Math.sqrt(1 - sunlightAngleSINE * sunlightAngleSINE)`. -/
def yDisplacementIdentity (dayOfYear : ℝ) : ℝ :=
  SunlightDistance *
    (sunlightAngleSINE dayOfYear /
      Real.sqrt (1 - sunlightAngleSINE dayOfYear * sunlightAngleSINE dayOfYear))

/- ======================= Orbit camera controller ========================== -/

/-- A 3-component vector, standing for a `THREE.Vector3`. -/
structure Vec3 where
  x : ℝ
  y : ℝ
  z : ℝ

/-- Euclidean length of a `Vec3`, i.e. its distance to the origin. -/
def norm3 (v : Vec3) : ℝ := Real.sqrt (v.x ^ 2 + v.y ^ 2 + v.z ^ 2)

/-- `earth.position.set(0, 0, 0)`: the planet center sits at the origin. -/
def earthPosition : Vec3 := ⟨0, 0, 0⟩

end

namespace Ortho

/-- `const DefaultCameraDistance = 1.5` (first `main.js` program). -/
noncomputable def DefaultCameraDistance : ℝ := 1.5

/-- The module-level camera angles `cameraTheta`, `cameraPhi`. -/
structure CameraState where
  theta : ℝ
  phi : ℝ

/-- The angle updates of `moveSphericCamera(deltaX, deltaY)`:
`cameraTheta += deltaX * 0.01`; `cameraPhi -= deltaY * 0.01`;
`cameraPhi = Math.max(Math.min(cameraPhi, PI), 0.001)`. -/
noncomputable def moveSphericCamera (s : CameraState) (deltaX deltaY : ℝ) : CameraState :=
  { theta := s.theta + deltaX * 0.01
    phi := max (min (s.phi - deltaY * 0.01) Real.pi) 0.001 }

/-- The position written by `moveSphericCamera`:
`x = d·sin(phi)·cos(theta)`, `z = d·sin(phi)·sin(theta)`, `y = d·cos(phi)`,
then `camera.position.set(x, y, z)`. -/
noncomputable def cameraPosition (cameraDistance : ℝ) (s : CameraState) : Vec3 :=
  { x := cameraDistance * Real.sin s.phi * Real.cos s.theta
    z := cameraDistance * Real.sin s.phi * Real.sin s.theta
    y := cameraDistance * Real.cos s.phi }

/-- A fold of `moveSphericCamera` over a finite sequence of drag deltas. -/
noncomputable def applyDrags (s : CameraState) (deltas : List (ℝ × ℝ)) : CameraState :=
  deltas.foldl (fun s d => moveSphericCamera s d.1 d.2) s

/-- The camera configuration `resetCamera` leaves behind: distance, position,
look-at target (`earth.position`) and the two angles. -/
structure CameraRig where
  state : CameraState
  cameraDistance : ℝ
  position : Vec3
  lookTarget : Vec3

/-- `resetCamera()`: `cameraDistance = DefaultCameraDistance`;
`camera.position.set(0, 0, cameraDistance)`; `camera.lookAt(earth.position)`;
`cameraTheta = PI / 2`; `cameraPhi = PI / 2`. -/
noncomputable def resetCamera : CameraRig :=
  { cameraDistance := DefaultCameraDistance
    position := ⟨0, 0, DefaultCameraDistance⟩
    lookTarget := earthPosition
    state := ⟨Real.pi / 2, Real.pi / 2⟩ }

/-- The two zoom keys handled by `handleKeyDown`. -/
inductive ZoomKey
  | zoomOut
  | zoomIn

/-- One zoom step of `handleKeyDown`: for `z` (zoom out)
`cameraDistance *= 1.1; cameraDistance = Math.min(cameraDistance, 10)`; for
`c` (zoom in) `cameraDistance *= 0.9; cameraDistance = Math.max(cameraDistance, 1)`. -/
noncomputable def applyZoom (cameraDistance : ℝ) : ZoomKey → ℝ
  | .zoomOut => min (cameraDistance * 1.1) 10
  | .zoomIn => max (cameraDistance * 0.9) 1

/-- A fold of `applyZoom` over a finite sequence of zoom key events. -/
noncomputable def applyZooms (cameraDistance : ℝ) (keys : List ZoomKey) : ℝ :=
  keys.foldl applyZoom cameraDistance

end Ortho

namespace Persp

/-- The module-level camera angles of the second `main.js` program:
`cameraTheta`, `cameraPhi`, `cameraTilt`. -/
structure CameraState where
  theta : ℝ
  phi : ℝ
  tilt : ℝ

/-- Rotation of a 2D vector `(dx, dy)` by angle `a` with the standard 2D
rotation matrix. -/
noncomputable def rotateDelta (a dx dy : ℝ) : ℝ × ℝ :=
  (dx * Real.cos a - dy * Real.sin a, dx * Real.sin a + dy * Real.cos a)

/-- `moveSphericCamera(deltaX, deltaY)` of the tilt-supporting variant:
`deltaXRotated = deltaX * cos(-cameraTilt) - deltaY * sin(-cameraTilt)`;
`deltaYRotated = deltaX * sin(-cameraTilt) + deltaY * cos(-cameraTilt)`;
`cameraTheta += deltaXRotated * 0.01`; `cameraPhi -= deltaYRotated * 0.01`;
`cameraPhi = Math.max(Math.min(cameraPhi, PI), 0.001)`; after the look-at the
camera roll is restored with `camera.rotation.z += cameraTilt`, so the tilt
component is unchanged. -/
noncomputable def moveSphericCamera (s : CameraState) (deltaX deltaY : ℝ) : CameraState :=
  let deltaXRotated := deltaX * Real.cos (-s.tilt) - deltaY * Real.sin (-s.tilt)
  let deltaYRotated := deltaX * Real.sin (-s.tilt) + deltaY * Real.cos (-s.tilt)
  { theta := s.theta + deltaXRotated * 0.01
    phi := max (min (s.phi - deltaYRotated * 0.01) Real.pi) 0.001
    tilt := s.tilt }

end Persp

namespace Part0

/-- The `sphericalCameraAngle` record of `src/unnamed/part_000`. -/
structure CameraAngle where
  theta : ℝ
  phi : ℝ

/-- The angle updates of `handleMouseMove` in `src/unnamed/part_000`:
`theta += deltaX * 0.01`; `phi -= deltaY * 0.01`;
`phi = Math.max(Math.min(phi, Math.PI - 0.1), 0.1)`. -/
noncomputable def handleMouseMove (s : CameraAngle) (deltaX deltaY : ℝ) : CameraAngle :=
  { theta := s.theta + deltaX * 0.01
    phi := max (min (s.phi - deltaY * 0.01) (Real.pi - 0.1)) 0.1 }

/-- A fold of `handleMouseMove` over a finite sequence of drag deltas. -/
noncomputable def applyDrags (s : CameraAngle) (deltas : List (ℝ × ℝ)) : CameraAngle :=
  deltas.foldl (fun s d => handleMouseMove s d.1 d.2) s

end Part0

end EarthSim

/- ========================== Theorems: C1 and C5 =========================== -/

namespace EarthSim

/-- C1: for every wall-clock time, `updateEarthRotation` writes
`utcMinutes * (2π/1440) + (−π) − π/2` with `utcMinutes = hours*60 + minutes`
to the planet's rotation; at UTC 00:00 the value is congruent to `−π − π/2`
modulo `2π`, and at UTC 12:00 (minute 720) it is congruent to `−π/2`. -/
theorem updateEarthRotation_eq_computePlanetRotation :
    (∀ t : ℕ, updateEarthRotation t =
      computePlanetRotation (getUTCHours t) (getUTCMinutes t)) ∧
    congMod2Pi (updateEarthRotation 0) (-Real.pi - Real.pi / 2) ∧
    congMod2Pi (updateEarthRotation 720) (-(Real.pi / 2)) := by
  refine ⟨fun t => rfl, ⟨0, ?_⟩, ⟨0, ?_⟩⟩
  · simp only [updateEarthRotation, RadPerMinute, GMTOffset, Int.cast_zero]
    norm_num [UTCMinutes, getUTCHours, getUTCMinutes]
  · have h : UTCMinutes 720 = 720 := by decide
    simp only [updateEarthRotation, RadPerMinute, GMTOffset, h, Int.cast_zero]
    push_cast
    ring

/-- C2 counterexample: at local midnight of January 1, 2025 the source's
`dayOfYear` is 1 while the floor formula based at midnight January 1 (the
convention the claim asserts) yields 0, which also leaves the claimed
range 1–366. So the code's `startOfYear` is not midnight January 1. -/
theorem dayOfYear_jan1_convention_fails :
    dayOfYear ⟨2025, 0, 0⟩ = 1 ∧ dayOfYearJan1 ⟨2025, 0, 0⟩ = 0 ∧
      ¬ (1 ≤ dayOfYearJan1 ⟨2025, 0, 0⟩) := by
  refine ⟨rfl, rfl, ?_⟩
  decide

/-- C2 amended: `dayOfYear` is `floor((date − startOfYear)/86400000)` where
`startOfYear` is local midnight of December 31 of the previous year
(`new Date(year, 0, 0)`); for every valid date it equals the 1-based day
index and lies in the range 1–366. -/
theorem dayOfYear_range (d : LocalDate) (h : ValidDate d) :
    dayOfYear d = d.dayIndex + 1 ∧ 1 ≤ dayOfYear d ∧ dayOfYear d ≤ 366 := by
  obtain ⟨hday, hms⟩ := h
  have hq : dayOfYear d = d.dayIndex + 1 := by
    unfold dayOfYear msSinceStartOfYear
    simp only [msPerDay] at hms ⊢
    omega
  have hle : d.dayIndex + 1 ≤ 366 := by
    have : daysInYear d.year ≤ 366 := by
      unfold daysInYear
      split <;> norm_num
    omega
  exact ⟨hq, by omega, by omega⟩

/-- C2 witness: December 31 of the leap year 2024 (day index 365) is a valid
date, and its `dayOfYear` is 366, inside the range. -/
theorem dayOfYear_range_witness :
    ValidDate ⟨2024, 365, 0⟩ ∧
      (dayOfYear ⟨2024, 365, 0⟩ = 365 + 1 ∧ 1 ≤ dayOfYear ⟨2024, 365, 0⟩ ∧
        dayOfYear ⟨2024, 365, 0⟩ ≤ 366) :=
  ⟨by constructor <;> decide, dayOfYear_range ⟨2024, 365, 0⟩ (by constructor <;> decide)⟩

/-- C4: the two sun-elevation computations agree exactly over the reals: for
every day of year, `SunlightDistance * tan(asin(sinDecl))` (first `main.js`
program) equals `SunlightDistance * (sinDecl / √(1 − sinDecl·sinDecl))`
(the other two variants), where
`sinDecl = 0.398 * cos(2π * (dayOfYear − 173) / 365.242)`. -/
theorem yDisplacementAsin_eq_yDisplacementIdentity (dayOfYear : ℝ) :
    yDisplacementAsin dayOfYear = yDisplacementIdentity dayOfYear := by
  unfold yDisplacementAsin yDisplacementIdentity getSunlightAngle
  rw [Real.tan_arcsin, sq (sunlightAngleSINE dayOfYear)]

/-- C9: `computeSunElevation` attains its maximum, `asin 0.398`, at
day-of-year 173, and is symmetric around day 173. -/
theorem getSunlightAngle_max_at_173 :
    (∀ d : ℝ, getSunlightAngle d ≤ Real.arcsin 0.398) ∧
    getSunlightAngle 173 = Real.arcsin 0.398 ∧
    (∀ x : ℝ, getSunlightAngle (173 + x) = getSunlightAngle (173 - x)) := by
  refine ⟨fun d => ?_, ?_, fun x => ?_⟩
  · apply Real.monotone_arcsin
    have h := Real.cos_le_one (2 * Real.pi * (d - 173) / 365.242)
    unfold sunlightAngleSINE
    nlinarith
  · unfold getSunlightAngle sunlightAngleSINE
    norm_num
  · unfold getSunlightAngle sunlightAngleSINE
    have h : 2 * Real.pi * (173 + x - 173) / 365.242 =
        -(2 * Real.pi * (173 - x - 173) / 365.242) := by ring
    rw [h, Real.cos_neg]

/-- C5: `computePlanetRotation` derived from the wall clock is periodic with
period 1440 minutes: the rotation at `t + 1440` minutes is congruent modulo
`2π` to the rotation at `t` (here they are even equal, since the UTC
time of day repeats exactly). -/
theorem updateEarthRotation_periodic (t : ℕ) :
    congMod2Pi (updateEarthRotation (t + 1440)) (updateEarthRotation t) := by
  refine ⟨0, ?_⟩
  have h : UTCMinutes (t + 1440) = UTCMinutes t := by
    simp only [UTCMinutes, getUTCHours, getUTCMinutes]
    omega
  simp [updateEarthRotation, h]

/-- Helper: one drag of the orthographic variant clamps `phi` into `[0.001, π]`. -/
theorem Ortho.moveSphericCamera_phi_mem (s : Ortho.CameraState) (dx dy : ℝ) :
    0.001 ≤ (Ortho.moveSphericCamera s dx dy).phi ∧
      (Ortho.moveSphericCamera s dx dy).phi ≤ Real.pi := by
  refine ⟨le_max_right _ _, max_le (min_le_right _ _) ?_⟩
  linarith [Real.pi_gt_three]

/-- Helper: folding drags from a state with `phi ∈ [0.001, π]` keeps it there. -/
theorem Ortho.applyDrags_phi_mem (deltas : List (ℝ × ℝ)) (s : Ortho.CameraState)
    (h : 0.001 ≤ s.phi ∧ s.phi ≤ Real.pi) :
    0.001 ≤ (Ortho.applyDrags s deltas).phi ∧
      (Ortho.applyDrags s deltas).phi ≤ Real.pi := by
  induction deltas generalizing s with
  | nil => exact h
  | cons d ds ih =>
      simp only [Ortho.applyDrags, List.foldl_cons] at ih ⊢
      exact ih _ (Ortho.moveSphericCamera_phi_mem s d.1 d.2)

/-- Helper: one drag of the `part_000` variant clamps `phi` into `[0.1, π − 0.1]`. -/
theorem Part0.handleMouseMove_phi_mem (s : Part0.CameraAngle) (dx dy : ℝ) :
    0.1 ≤ (Part0.handleMouseMove s dx dy).phi ∧
      (Part0.handleMouseMove s dx dy).phi ≤ Real.pi - 0.1 := by
  refine ⟨le_max_right _ _, max_le (min_le_right _ _) ?_⟩
  linarith [Real.pi_gt_three]

/-- Helper: folding `part_000` drags from `phi ∈ [0.1, π − 0.1]` keeps it there. -/
theorem Part0.applyDrags_phi_bounds (deltas : List (ℝ × ℝ)) (s : Part0.CameraAngle)
    (h : 0.1 ≤ s.phi ∧ s.phi ≤ Real.pi - 0.1) :
    0.1 ≤ (Part0.applyDrags s deltas).phi ∧
      (Part0.applyDrags s deltas).phi ≤ Real.pi - 0.1 := by
  induction deltas generalizing s with
  | nil => exact h
  | cons d ds ih =>
      simp only [Part0.applyDrags, List.foldl_cons] at ih ⊢
      exact ih _ (Part0.handleMouseMove_phi_mem s d.1 d.2)

/-- C3 counterexample: one drag with `deltaY = -1000` from the default state
`theta = phi = π/2` drives `phi` to exactly `π`: the clamp
`Math.max(Math.min(cameraPhi, PI), 0.001)` is inclusive at `π`, so `phi`
does not stay strictly inside an open interval excluding `π`. -/
theorem moveSphericCamera_phi_hits_pi :
    (Ortho.moveSphericCamera ⟨Real.pi / 2, Real.pi / 2⟩ 0 (-1000)).phi = Real.pi := by
  simp only [Ortho.moveSphericCamera]
  rw [min_eq_right (by norm_num; linarith [Real.pi_le_four] :
      Real.pi ≤ Real.pi / 2 - (-1000) * 0.01),
    max_eq_left (by linarith [Real.pi_gt_three] : (0.001 : ℝ) ≤ Real.pi)]

/-- C3 amended: for every starting state and every nonempty finite sequence of
drag deltas, the resulting `phi` stays in the closed interval `[0.001, π]` of
the `moveSphericCamera` clamp — in particular it is never exactly `0`, but it
may equal `π`; in the `part_000` variant `handleMouseMove` keeps `phi` in
`[0.1, π − 0.1]`, strictly between `0` and `π`. -/
theorem applyDrags_phi_clamped (s : Ortho.CameraState) (s₀ : Part0.CameraAngle)
    (d : ℝ × ℝ) (ds : List (ℝ × ℝ)) :
    (0.001 ≤ (Ortho.applyDrags s (d :: ds)).phi ∧
      (Ortho.applyDrags s (d :: ds)).phi ≤ Real.pi ∧
      (Ortho.applyDrags s (d :: ds)).phi ≠ 0) ∧
    (0.1 ≤ (Part0.applyDrags s₀ (d :: ds)).phi ∧
      (Part0.applyDrags s₀ (d :: ds)).phi ≤ Real.pi - 0.1 ∧
      0 < (Part0.applyDrags s₀ (d :: ds)).phi ∧
      (Part0.applyDrags s₀ (d :: ds)).phi < Real.pi) := by
  have hO : 0.001 ≤ (Ortho.applyDrags s (d :: ds)).phi ∧
      (Ortho.applyDrags s (d :: ds)).phi ≤ Real.pi := by
    simp only [Ortho.applyDrags, List.foldl_cons]
    exact Ortho.applyDrags_phi_mem ds _ (Ortho.moveSphericCamera_phi_mem s d.1 d.2)
  have hP : 0.1 ≤ (Part0.applyDrags s₀ (d :: ds)).phi ∧
      (Part0.applyDrags s₀ (d :: ds)).phi ≤ Real.pi - 0.1 := by
    simp only [Part0.applyDrags, List.foldl_cons]
    exact Part0.applyDrags_phi_bounds ds _ (Part0.handleMouseMove_phi_mem s₀ d.1 d.2)
  refine ⟨⟨hO.1, hO.2, by linarith [hO.1]⟩,
    hP.1, hP.2, by linarith [hP.1], by linarith [hP.2]⟩

/-- C6: resetting the camera restores `theta = phi = π/2`, `tilt`-free state
and default distance, and both the directly written position and the
spherical-to-Cartesian conversion of the reset state give
`(0, 0, DefaultCameraDistance)`, with the camera looking at the origin. -/
theorem resetCamera_roundtrip :
    Ortho.cameraPosition Ortho.resetCamera.cameraDistance Ortho.resetCamera.state =
      ⟨0, 0, Ortho.DefaultCameraDistance⟩ ∧
    Ortho.resetCamera.position = ⟨0, 0, Ortho.DefaultCameraDistance⟩ ∧
    Ortho.resetCamera.lookTarget = ⟨0, 0, 0⟩ := by
  refine ⟨?_, rfl, rfl⟩
  simp [Ortho.cameraPosition, Ortho.resetCamera, Real.cos_pi_div_two,
    Real.sin_pi_div_two]

/-- C7: the tilt-supporting `moveSphericCamera` first rotates the raw delta by
`−tilt` with the 2D rotation matrix, and applying a drag under tilt `t` is the
same as un-tilting the delta by `−t`, applying the drag at zero tilt, and
re-tilting the camera by `t`. -/
theorem moveSphericCamera_tilt_equivariant (s : Persp.CameraState) (deltaX deltaY : ℝ) :
    Persp.moveSphericCamera s deltaX deltaY =
      { Persp.moveSphericCamera ⟨s.theta, s.phi, 0⟩
          (Persp.rotateDelta (-s.tilt) deltaX deltaY).1
          (Persp.rotateDelta (-s.tilt) deltaX deltaY).2 with tilt := s.tilt } ∧
    (Persp.moveSphericCamera s deltaX deltaY).theta =
      s.theta + (Persp.rotateDelta (-s.tilt) deltaX deltaY).1 * 0.01 := by
  constructor
  · simp only [Persp.moveSphericCamera, Persp.rotateDelta, Real.cos_zero,
      Real.sin_zero, neg_zero]
    congr 1 <;> ring_nf
  · rfl

/-- C8: starting from any distance in `[1, 10]`, any finite sequence of
zoom-in / zoom-out key events keeps the camera distance in `[1, 10]`. -/
theorem applyZooms_distance_clamped (d : ℝ) (keys : List Ortho.ZoomKey)
    (h1 : 1 ≤ d) (h10 : d ≤ 10) :
    1 ≤ Ortho.applyZooms d keys ∧ Ortho.applyZooms d keys ≤ 10 := by
  induction keys generalizing d with
  | nil => exact ⟨h1, h10⟩
  | cons k ks ih =>
      have hstep : 1 ≤ Ortho.applyZoom d k ∧ Ortho.applyZoom d k ≤ 10 := by
        cases k with
        | zoomOut =>
            exact ⟨le_min (by nlinarith) (by norm_num), min_le_right _ _⟩
        | zoomIn =>
            exact ⟨le_max_right _ _, max_le (by nlinarith) (by norm_num)⟩
      simp only [Ortho.applyZooms, List.foldl_cons] at ih ⊢
      exact ih _ hstep.1 hstep.2

/-- C8 witness: the default distance `1.5` is in range and stays in range
after a zoom-out followed by a zoom-in. -/
theorem applyZooms_distance_clamped_witness :
    ((1 : ℝ) ≤ Ortho.DefaultCameraDistance ∧ Ortho.DefaultCameraDistance ≤ 10) ∧
    (1 ≤ Ortho.applyZooms Ortho.DefaultCameraDistance
        [Ortho.ZoomKey.zoomOut, Ortho.ZoomKey.zoomIn] ∧
      Ortho.applyZooms Ortho.DefaultCameraDistance
        [Ortho.ZoomKey.zoomOut, Ortho.ZoomKey.zoomIn] ≤ 10) :=
  ⟨⟨by norm_num [Ortho.DefaultCameraDistance], by norm_num [Ortho.DefaultCameraDistance]⟩,
    applyZooms_distance_clamped Ortho.DefaultCameraDistance
      [Ortho.ZoomKey.zoomOut, Ortho.ZoomKey.zoomIn]
      (by norm_num [Ortho.DefaultCameraDistance])
      (by norm_num [Ortho.DefaultCameraDistance])⟩

/-- Helper: the spherical-to-Cartesian position always has length equal to the
(nonnegative) camera distance. -/
theorem Ortho.norm3_cameraPosition (dist : ℝ) (s : Ortho.CameraState)
    (hdist : 0 ≤ dist) : norm3 (Ortho.cameraPosition dist s) = dist := by
  have key : (Ortho.cameraPosition dist s).x ^ 2 + (Ortho.cameraPosition dist s).y ^ 2 +
      (Ortho.cameraPosition dist s).z ^ 2 = dist ^ 2 := by
    have h1 : Real.sin s.theta ^ 2 + Real.cos s.theta ^ 2 = 1 :=
      Real.sin_sq_add_cos_sq s.theta
    have h2 : Real.sin s.phi ^ 2 + Real.cos s.phi ^ 2 = 1 :=
      Real.sin_sq_add_cos_sq s.phi
    simp only [Ortho.cameraPosition]
    linear_combination dist ^ 2 * Real.sin s.phi ^ 2 * h1 + dist ^ 2 * h2
  rw [norm3, key, Real.sqrt_sq hdist]

/-- C10: after a `moveSphericCamera` update (for any nonnegative configured
distance) the camera position lies at Euclidean distance exactly
`cameraDistance` from the origin, and the position written by `resetCamera`
likewise lies at distance `cameraDistance` from the origin. -/
theorem camera_on_orbit_sphere :
    (∀ (dist : ℝ) (s : Ortho.CameraState) (dx dy : ℝ), 0 ≤ dist →
      norm3 (Ortho.cameraPosition dist (Ortho.moveSphericCamera s dx dy)) = dist) ∧
    norm3 Ortho.resetCamera.position = Ortho.resetCamera.cameraDistance := by
  constructor
  · exact fun dist s dx dy hdist => Ortho.norm3_cameraPosition dist _ hdist
  · show norm3 ⟨0, 0, Ortho.DefaultCameraDistance⟩ = Ortho.DefaultCameraDistance
    have h : (0 : ℝ) ^ 2 + (0 : ℝ) ^ 2 + Ortho.DefaultCameraDistance ^ 2 =
        Ortho.DefaultCameraDistance ^ 2 := by ring
    rw [norm3, h, Real.sqrt_sq (by norm_num [Ortho.DefaultCameraDistance])]

/-- C10 witness: at distance `2` starting from angles `(0, 0)` and drag
`(1, 1)`, the updated camera position has distance exactly `2` to the origin. -/
theorem camera_on_orbit_sphere_witness :
    (0 : ℝ) ≤ 2 ∧
      norm3 (Ortho.cameraPosition 2 (Ortho.moveSphericCamera ⟨0, 0⟩ 1 1)) = 2 :=
  ⟨by norm_num, camera_on_orbit_sphere.1 2 ⟨0, 0⟩ 1 1 (by norm_num)⟩

end EarthSim
